import Mathlib

/-!
Formal model of the Note Index Engine.

A shallow embedding of the markdown note-index engine in
`src/frontend/src-tauri/src/markdown/search.rs`.

The persistent SQLite store is modelled as an explicit state:

* table `notes` (from `markdown_init_index`) — a list of `NoteRow`,
  with `id` declared `PRIMARY KEY` and `path` declared `UNIQUE`;
* virtual table `notes_fts` — an FTS5 *external content* table
  (`content=notes, content_rowid=id`).  Per SQLite's documented FTS5
  semantics, an external-content FTS table's inverted index is **not**
  updated when the content table is written; it changes only through
  explicit writes to the FTS table itself (typically via triggers).
  The source creates no triggers and never writes `notes_fts`, so in the
  model no operation touches the `notesFts` component.

Timestamps (`chrono::Utc::now().to_rfc3339()`) are modelled as abstract
instants (`Nat`), passed to each operation as an explicit clock value;
the RFC3339 encoding is order-preserving on instants.  Columns that are
nullable in the schema (`created`, `updated`) are `Option Nat`.

`bm25(notes_fts)` and `snippet(notes_fts, ...)` are floating-point /
text functions of the FTS machinery; no claim depends on their values,
so they are passed to `markdown_search_notes` as uninterpreted function
parameters.
-/

namespace NoteIndex

/-- One row of the `notes` table created by `markdown_init_index`. -/
structure NoteRow where
  id : String
  path : String
  title : String
  content : String
  frontmatter : String
  tags : String
  aliases : String
  word_count : Int
  checksum : String
  created : Option Nat
  updated : Option Nat
  is_starred : Bool
  is_template : Bool
deriving DecidableEq

/-- One row of the FTS5 inverted index behind `notes_fts`.  `rowid` is the
FTS rowid (an SQLite integer); the four columns are the searchable fields
declared in the `CREATE VIRTUAL TABLE` statement. -/
structure FtsEntry where
  rowid : Int
  title : String
  content : String
  tags : String
  aliases : String
deriving DecidableEq

/-- The state of one index store: the `notes` table and the FTS5 inverted
index of `notes_fts`. -/
structure IndexState where
  notes : List NoteRow
  notesFts : List FtsEntry
deriving DecidableEq

/-- `markdown_init_index` on a fresh store: `CREATE TABLE`/`CREATE VIRTUAL
TABLE` yield empty tables (`IF NOT EXISTS` makes a repeated call a no-op,
so a fresh store is fully described by the empty state). -/
def markdown_init_index : IndexState :=
  { notes := [], notesFts := [] }

/-- `s.replace(a, "_")` in Rust for a one-character pattern: replace each
occurrence of the character `a` by `b`. -/
def replaceChar (a b : Char) (s : String) : String :=
  String.mk (s.data.map fun c => if c = a then b else c)

/-- The document-id derivation of `markdown_index_note`: the fixed text
`note_` followed by the path with `'/'` replaced by `'_'` and then `'\\'`
replaced by `'_'`. -/
def noteId (path : String) : String :=
  "note_" ++ replaceChar '\\' '_' (replaceChar '/' '_' path)

/-- `SELECT ... FROM notes WHERE path = ?` (scalar lookup).  `path` is
`UNIQUE`, so in states reachable from an initialized store at most one row
matches; `find?` returns the first. -/
def findByPath (st : IndexState) (path : String) : Option NoteRow :=
  st.notes.find? fun r => r.path == path

/-- `markdown_index_note`: one
`INSERT OR REPLACE INTO notes (...) VALUES (?, ..., COALESCE((SELECT
created FROM notes WHERE path = ?), ?), ?)`.

* the `created` value is resolved by the scalar subquery against the
  pre-insert table, falling back (`COALESCE`) to the current time when no
  row with this `path` exists or its `created` is NULL;
* `OR REPLACE` deletes every existing row that conflicts with the new row
  on a uniqueness constraint — on `id` (PRIMARY KEY) or on `path`
  (UNIQUE) — before inserting;
* the column list omits `is_starred` and `is_template`, so the inserted
  row takes their schema defaults (`DEFAULT 0`);
* `notes_fts` is an external-content FTS5 table and the statement does not
  write it (and no triggers exist), so `notesFts` is unchanged. -/
def markdown_index_note (st : IndexState) (now : Nat)
    (path title content frontmatter tags aliases : String)
    (word_count : Int) (checksum : String) : IndexState :=
  let note_id := noteId path
  let createdVal : Nat := (((findByPath st path).bind fun r => r.created).getD now)
  let newRow : NoteRow :=
    { id := note_id, path := path, title := title, content := content
      frontmatter := frontmatter, tags := tags, aliases := aliases
      word_count := word_count, checksum := checksum
      created := some createdVal, updated := some now
      is_starred := false, is_template := false }
  { st with
    notes := (st.notes.filter fun r => r.id != note_id && r.path != path) ++ [newRow] }

/-- `markdown_remove_from_index`: `DELETE FROM notes WHERE path = ?`.
No statement touches `notes_fts`. -/
def markdown_remove_from_index (st : IndexState) (path : String) : IndexState :=
  { st with notes := st.notes.filter fun r => r.path != path }

/-- One invocation of a state-mutating index command. -/
inductive Op where
  | indexNote (now : Nat) (path title content frontmatter tags aliases : String)
      (word_count : Int) (checksum : String)
  | removeFromIndex (path : String)

/-- Apply one command to the store. -/
def applyOp (st : IndexState) : Op → IndexState
  | .indexNote now p t c fm tg al wc ck => markdown_index_note st now p t c fm tg al wc ck
  | .removeFromIndex p => markdown_remove_from_index st p

/-- The store after a sequence of commands against a freshly initialized
index. -/
def runOps (ops : List Op) : IndexState :=
  ops.foldl applyOp markdown_init_index

/-- Paths whose characters are disjoint from the replacement target: no
`'_'` and no `'\\'`.  On this domain the id derivation is invertible. -/
def pathSepSafe (p : String) : Bool :=
  p.data.all fun c => c != '_' && c != '\\'

/-- Rust `str::split_whitespace` applied to the query: the maximal
whitespace-free runs, empty pieces discarded. -/
def splitWhitespaceTokens (s : String) : List String :=
  ((s.data.splitOnP fun c => c.isWhitespace).map String.mk).filter fun t => t != ""

/-- `" OR "`-style join used when assembling the MATCH expression
(`Vec::join` on the collected terms). -/
def intercalateStr (sep : String) : List String → String
  | [] => ""
  | [x] => x
  | x :: y :: xs => x ++ sep ++ intercalateStr sep (y :: xs)

/-- The FTS MATCH expression built by `markdown_search_notes`:
each whitespace token becomes the prefix phrase `"token"*`, the terms are
joined with `" OR "`. -/
def ftsMatchExpr (queryText : String) : String :=
  intercalateStr " OR "
    ((splitWhitespaceTokens queryText).map fun term => "\"" ++ term ++ "\"*")

/-- FTS5 `unicode61` document tokenization (defaults): case-folded maximal
runs of alphanumeric characters.  (Diacritic removal is irrelevant to the
inputs considered here and is not modelled.) -/
def ftsWords (s : String) : List String :=
  (((s.data.map Char.toLower).splitOnP fun c => !c.isAlphanum).map String.mk).filter
    fun t => t != ""

/-- One query term `"term"*` matches an FTS entry when the (case-folded)
term is a prefix of some token of one of the four indexed columns. -/
def termPrefixMatches (term : String) (e : FtsEntry) : Bool :=
  (ftsWords e.title ++ ftsWords e.content ++ ftsWords e.tags ++ ftsWords e.aliases).any
    fun w => (term.data.map Char.toLower).isPrefixOf w.data

/-- `notes_fts MATCH <expr>` for the OR-of-prefix-terms expression built
above: the entry matches when at least one token matches. -/
def entryMatches (tokens : List String) (e : FtsEntry) : Bool :=
  tokens.any fun t => termPrefixMatches t e

/-- An FTS5 MATCH expression built from these tokens parses: the token
list is nonempty (the empty expression is an fts5 syntax error) and no
token carries an embedded double quote (which would break the generated
`"token"*` phrase syntax). -/
def ftsExprOk (tokens : List String) : Bool :=
  !tokens.isEmpty && tokens.all fun t => t.data.all fun c => c != '"'

/-- Digits-only reading of a character list. -/
def decimalDigitsAsNat (ds : List Char) : Option Nat :=
  if ds.isEmpty then none
  else ds.foldl (fun acc c =>
    acc.bind fun a => if c.isDigit then some (a * 10 + (c.toNat - 48)) else none) (some 0)

/-- Lossless decimal reading of a text value: `some` exactly on strings
that are a base-10 integer numeral. -/
def decimalTextAsInt (s : String) : Option Int :=
  match s.data with
  | '-' :: ds => (decimalDigitsAsNat ds).map fun n => -(n : Int)
  | ds => (decimalDigitsAsNat ds).map fun n => (n : Int)

/-- SQLite comparison `notes_fts.rowid = n.id` in the search JOIN:
`rowid` has INTEGER affinity, `id` TEXT affinity, so the text value is
converted to an integer when that conversion is lossless and reversible,
and the comparison is false otherwise (an integer never equals a
non-numeric text). -/
def sqliteIntEqText (i : Int) (s : String) : Bool :=
  decimalTextAsInt s == some i

/-- One row of the JSON array returned by `markdown_search_notes`:
columns `id`, `path`, `title` come from the joined `notes` row, `score`
is `bm25(notes_fts)` and `snippet` is `snippet(notes_fts, ...)`. -/
structure SearchResult where
  id : String
  path : String
  title : String
  score : Int
  snippet : String
deriving DecidableEq

/-- Insertion step for `ORDER BY score DESC`. -/
def insertByScoreDesc (r : SearchResult) : List SearchResult → List SearchResult
  | [] => [r]
  | x :: xs => if x.score ≤ r.score then r :: x :: xs else x :: insertByScoreDesc r xs

/-- `ORDER BY score DESC` (ties in no guaranteed order; any sort that is
descending on `score` is a faithful model). -/
def sortByScoreDesc (l : List SearchResult) : List SearchResult :=
  l.foldr insertByScoreDesc []

/-- `LIMIT ?`: SQLite applies no bound when the limit expression is
negative. -/
def applyLimit (lim : Int) (l : List SearchResult) : List SearchResult :=
  if lim < 0 then l else l.take lim.toNat

/-- `markdown_search_notes`:

* `limit.unwrap_or(50)`;
* the MATCH expression is built from the whitespace tokens of `query`
  (`ftsMatchExpr`); when it does not parse — in particular when `query`
  has no tokens and the expression is empty — the statement fails and the
  command returns the mapped error;
* otherwise the rows are the FTS entries matching the expression, joined
  to `notes` on `notes_fts.rowid = n.id` (`id` is PRIMARY KEY, so at most
  one row joins), ordered by `score` descending and cut to the limit.

`bm25F`/`snippetF` are the uninterpreted scoring and snippet functions of
the FTS machinery (floating-point in the source). -/
def markdown_search_notes (st : IndexState)
    (bm25F : FtsEntry → List String → Int) (snippetF : FtsEntry → List String → String)
    (query : String) (limit : Option Int) : Except String (List SearchResult) :=
  let lim : Int := limit.getD 50
  let tokens := splitWhitespaceTokens query
  if ftsExprOk tokens then
    let matched := st.notesFts.filter (entryMatches tokens)
    let joined := matched.filterMap fun e =>
      (st.notes.find? fun n => sqliteIntEqText e.rowid n.id).map fun n => (e, n)
    let results := joined.map fun p =>
      { id := p.2.id, path := p.2.path, title := p.2.title
        score := bm25F p.1 tokens, snippet := snippetF p.1 tokens : SearchResult }
    .ok (applyLimit lim (sortByScoreDesc results))
  else
    .error "Search failed: fts5 syntax error in MATCH expression"

/-- The matched-result list of a search outcome (`[]` for an error). -/
def okResults : Except String (List SearchResult) → List SearchResult
  | .ok l => l
  | .error _ => []

/-- One element of the list returned by `markdown_list_notes`:
`link_count` and `backlink_count` are hardcoded `0` in the source;
NULL `created`/`updated` are replaced by the defaults (`unwrap_or_default`,
modelled as instant `0`). -/
structure NoteResult where
  id : String
  path : String
  title : String
  created : Nat
  updated : Nat
  tags : String
  aliases : String
  link_count : Int
  backlink_count : Int
  word_count : Int
  is_starred : Bool
  is_template : Bool
deriving DecidableEq

/-- Projection of a `notes` row to the summary returned by
`markdown_list_notes`. -/
def toNoteResult (r : NoteRow) : NoteResult :=
  { id := r.id, path := r.path, title := r.title
    created := r.created.getD 0, updated := r.updated.getD 0
    tags := r.tags, aliases := r.aliases
    link_count := 0, backlink_count := 0, word_count := r.word_count
    is_starred := r.is_starred, is_template := r.is_template }

/-- Insertion step for `ORDER BY updated DESC`. -/
def insertByUpdatedDesc (r : NoteResult) : List NoteResult → List NoteResult
  | [] => [r]
  | x :: xs => if x.updated ≤ r.updated then r :: x :: xs else x :: insertByUpdatedDesc r xs

/-- `ORDER BY updated DESC` (ties in no guaranteed order). -/
def sortByUpdatedDesc (l : List NoteResult) : List NoteResult :=
  l.foldr insertByUpdatedDesc []

/-- `markdown_list_notes`: `SELECT * FROM notes {filter} ORDER BY updated
DESC`.  The free-text SQL `filter` fragment is modelled as the row
predicate it denotes (the empty filter is `fun _ => true`). -/
def markdown_list_notes (st : IndexState) (filter : NoteRow → Bool) : List NoteResult :=
  sortByUpdatedDesc ((st.notes.filter filter).map toNoteResult)

/-- A concrete stand-in for the uninterpreted `bm25` scoring function,
used only to instantiate closed statements. -/
def zeroScore : FtsEntry → List String → Int := fun _ _ => 0

/-- A concrete stand-in for the uninterpreted `snippet` function, used
only to instantiate closed statements. -/
def emptySnippet : FtsEntry → List String → String := fun _ _ => ""

/-- Undo the separator replacement of `noteId` on characters that are
neither `'_'` nor `'\\'` (a retraction used to prove the restricted
injectivity of the id derivation). -/
def sepUnfold (c : Char) : Char :=
  if c = '_' then '/' else c

/-- A command that cannot disturb the stored row of path `P`: an upsert of
a different path whose derived id also differs (an `INSERT OR REPLACE` of
a colliding id deletes `P`'s row), or a deletion of a different path. -/
def opPreservesPath (P : String) : Op → Prop
  | .indexNote _ q _ _ _ _ _ _ _ => q ≠ P ∧ noteId q ≠ noteId P
  | .removeFromIndex q => q ≠ P

/-- The stored `content` of the row for a path, if any. -/
def contentOfPath (st : IndexState) (P : String) : Option String :=
  (findByPath st P).map fun r => r.content

/-- The stored `(created, updated)` pair of the row for a path, if any. -/
def createdUpdatedOfPath (st : IndexState) (P : String) : Option (Option Nat × Option Nat) :=
  (findByPath st P).map fun r => (r.created, r.updated)

/-- The stored `(is_starred, is_template)` pair of the row for a path, if
any. -/
def flagsOfPath (st : IndexState) (P : String) : Option (Bool × Bool) :=
  (findByPath st P).map fun r => (r.is_starred, r.is_template)

/-! General lemmas. -/

/-- No command writes the FTS inverted index (no triggers exist and no
statement targets `notes_fts`). -/
lemma applyOp_notesFts (st : IndexState) (op : Op) : (applyOp st op).notesFts = st.notesFts := by
  cases op <;> rfl

lemma foldl_applyOp_notesFts (ops : List Op) (st : IndexState) :
    (ops.foldl applyOp st).notesFts = st.notesFts := by
  induction ops generalizing st with
  | nil => rfl
  | cons op ops ih => rw [List.foldl_cons, ih, applyOp_notesFts]

/-- In every store reachable from an initialized index, the FTS inverted
index is empty. -/
lemma runOps_notesFts (ops : List Op) : (runOps ops).notesFts = [] := by
  rw [runOps, foldl_applyOp_notesFts]; rfl

/-- A search over a store whose FTS index is empty returns `ok []` for
every parsable query. -/
lemma search_of_notesFts_nil (st : IndexState)
    (bm25F : FtsEntry → List String → Int) (snippetF : FtsEntry → List String → String)
    (query : String) (limit : Option Int)
    (hfts : st.notesFts = [])
    (hok : ftsExprOk (splitWhitespaceTokens query) = true) :
    markdown_search_notes st bm25F snippetF query limit = .ok [] := by
  simp [markdown_search_notes, hfts, hok, applyLimit, sortByScoreDesc]

/-- `find?` commutes with a `filter` that keeps the found element. -/
lemma find?_filter_keep {α : Type} (p q : α → Bool) (l : List α) (r : α)
    (hfind : l.find? p = some r) (hq : q r = true) :
    (l.filter q).find? p = some r := by
  induction l with
  | nil => simp at hfind
  | cons a as ih =>
    by_cases hpa : p a = true
    · rw [List.find?_cons_of_pos _ hpa] at hfind
      injection hfind with h
      subst h
      rw [List.filter_cons, if_pos hq, List.find?_cons_of_pos _ hpa]
    · rw [List.find?_cons_of_neg _ hpa] at hfind
      rw [List.filter_cons]
      by_cases hqa : q a = true
      · rw [if_pos hqa, List.find?_cons_of_neg _ hpa]
        exact ih hfind
      · rw [if_neg hqa]
        exact ih hfind

/-- After `markdown_index_note`, the row stored for the indexed path is
exactly the freshly built row (the `OR REPLACE` filter removed every other
row with this path, and the new row is the only appended one). -/
lemma findByPath_indexNote_self (st : IndexState) (now : Nat)
    (path title content frontmatter tags aliases : String) (wc : Int) (ck : String) :
    findByPath (markdown_index_note st now path title content frontmatter tags aliases wc ck)
        path =
      some { id := noteId path, path := path, title := title, content := content
             frontmatter := frontmatter, tags := tags, aliases := aliases
             word_count := wc, checksum := ck
             created := some (((findByPath st path).bind fun r => r.created).getD now)
             updated := some now, is_starred := false, is_template := false } := by
  show ((st.notes.filter fun r : NoteRow => r.id != noteId path && r.path != path) ++ [_]).find?
      (fun r : NoteRow => r.path == path) = _
  rw [List.find?_append]
  have h1 : ((st.notes.filter fun r => r.id != noteId path && r.path != path).find?
      fun r => r.path == path) = none := by
    rw [List.find?_filter, List.find?_eq_none]
    intro x _
    simp only [Bool.and_eq_true, bne_iff_ne, beq_iff_eq, decide_eq_true_eq, not_and]
    intro h hxp
    exact h.2 hxp
  rw [h1]
  simp

/-- A command that preserves path `P` leaves `P`'s stored row (whose id is
the derived id of `P`) untouched. -/
lemma findByPath_preserved (st : IndexState) (P : String) (r : NoteRow)
    (hr : findByPath st P = some r) (hid : r.id = noteId P)
    (op : Op) (hop : opPreservesPath P op) :
    findByPath (applyOp st op) P = some r := by
  have hpr : r.path = P := by
    have := List.find?_some hr
    simpa using this
  cases op with
  | indexNote now q t c fm tg al wc ck =>
    obtain ⟨hq, hnid⟩ := hop
    show ((st.notes.filter fun x : NoteRow => x.id != noteId q && x.path != q) ++ [_]).find?
        (fun x : NoteRow => x.path == P) = _
    rw [List.find?_append]
    have h1 : ((st.notes.filter fun x => x.id != noteId q && x.path != q).find?
        fun x => x.path == P) = some r := by
      apply find?_filter_keep _ _ _ _ hr
      simp only [Bool.and_eq_true, bne_iff_ne]
      exact ⟨fun h => hnid ((hid ▸ h).symm ▸ rfl), fun h => hq (by rw [← h, hpr])⟩
    rw [h1]
    rfl
  | removeFromIndex q =>
    apply find?_filter_keep _ _ _ _ hr
    simp only [bne_iff_ne]
    exact fun h => hop (by rw [← h, hpr])

/-- Iterated preservation over a sequence of commands avoiding `P`. -/
lemma findByPath_foldl_preserved (mid : List Op) (P : String) (r : NoteRow)
    (hid : r.id = noteId P) (hmid : ∀ op ∈ mid, opPreservesPath P op) :
    ∀ st, findByPath st P = some r → findByPath (mid.foldl applyOp st) P = some r := by
  induction mid with
  | nil => exact fun st h => h
  | cons op ops ih =>
    intro st h
    rw [List.foldl_cons]
    exact ih (fun o ho => hmid o (List.mem_cons_of_mem _ ho)) _
      (findByPath_preserved st P r h hid op (hmid op (List.mem_cons_self _ _)))

/-- `sepUnfold` undoes the two separator replacements of `noteId` on
character lists free of `'_'` and `'\\'`. -/
lemma sepUnfold_cancel (l : List Char) (h : ∀ c ∈ l, c ≠ '_' ∧ c ≠ '\\') :
    (((l.map fun c => if c = '/' then '_' else c).map
        fun c => if c = '\\' then '_' else c).map sepUnfold) = l := by
  induction l with
  | nil => rfl
  | cons a as ih =>
    obtain ⟨ha1, ha2⟩ := h a (List.mem_cons_self a as)
    have tail := ih fun c hc => h c (List.mem_cons_of_mem a hc)
    simp only [List.map_cons, tail, List.cons.injEq, and_true]
    by_cases hsl : a = '/'
    · subst hsl
      simp [sepUnfold]
    · simp [sepUnfold, hsl, ha1, ha2]

/-- Membership through the insertion step of `ORDER BY updated DESC`. -/
lemma mem_insertByUpdatedDesc (r x : NoteResult) (l : List NoteResult) :
    x ∈ insertByUpdatedDesc r l ↔ x = r ∨ x ∈ l := by
  induction l with
  | nil => simp [insertByUpdatedDesc, eq_comm]
  | cons a as ih =>
    rw [insertByUpdatedDesc]
    by_cases hc : a.updated ≤ r.updated
    · rw [if_pos hc]
      simp [eq_comm]
    · rw [if_neg hc]
      simp only [List.mem_cons, ih]
      tauto

/-- Sorting by `updated` descending neither adds nor removes rows. -/
lemma mem_sortByUpdatedDesc (x : NoteResult) (l : List NoteResult) :
    x ∈ sortByUpdatedDesc l ↔ x ∈ l := by
  induction l with
  | nil => simp [sortByUpdatedDesc]
  | cons a as ih =>
    rw [sortByUpdatedDesc, List.foldr_cons]
    rw [show as.foldr insertByUpdatedDesc [] = sortByUpdatedDesc as from rfl]
    rw [mem_insertByUpdatedDesc, ih]
    simp

/-- The `LIMIT` clause bounds the result length by any nonnegative limit. -/
lemma length_applyLimit (lim : Int) (l : List SearchResult) (h : 0 ≤ lim) :
    (applyLimit lim l).length ≤ lim.toNat := by
  rw [applyLimit, if_neg (by omega)]
  simp [List.length_take]

/-! Claim theorems. -/

/-- Claim C4: refuted by the code — `markdown_index_note` writes the
document row but never a full-text shadow entry.  In general the command
leaves the FTS index exactly as it was, and concretely, after indexing one
note into a fresh index the `notes` table has one row while `notes_fts`
has no entry, so the "every document has exactly one shadow entry
reflecting the same version" invariant fails immediately. -/
theorem c4_shadow_never_written :
    (∀ (st : IndexState) (now : Nat) (p t c fm tg al : String) (wc : Int) (ck : String),
      (markdown_index_note st now p t c fm tg al wc ck).notesFts = st.notesFts) ∧
    (markdown_index_note markdown_init_index 0 "a.md" "T" "body" "" "" "" 1 "ck").notes.length
      = 1 ∧
    (markdown_index_note markdown_init_index 0 "a.md" "T" "body" "" "" "" 1 "ck").notesFts.length
      = 0 :=
  ⟨fun _ _ _ _ _ _ _ _ _ _ => rfl, by decide, rfl⟩

/-- Claim C5: counterexample to injectivity of the id derivation — the
distinct paths `"a/b"` and `"a_b"` derive the same document id, because
the separator replacement maps `'/'` onto a character that may already
occur in a path. -/
theorem c5_noteId_collision :
    noteId "a/b" = noteId "a_b" ∧ ("a/b" : String) ≠ "a_b" :=
  ⟨by decide, by decide⟩

/-- Claim C5 (amended): the id derivation is deterministic (it is a pure
function of the path), and it is injective over paths that contain
neither `'_'` nor `'\\'`; without that restriction injectivity fails,
since distinct paths can collide after separator replacement. -/
theorem c5_noteId_inj (p1 p2 : String)
    (h1 : pathSepSafe p1 = true) (h2 : pathSepSafe p2 = true)
    (h : noteId p1 = noteId p2) : p1 = p2 := by
  have hc1 : ∀ c ∈ p1.data, c ≠ '_' ∧ c ≠ '\\' := by
    intro c hc
    have := List.all_eq_true.mp h1 c hc
    simpa only [Bool.and_eq_true, bne_iff_ne] using this
  have hc2 : ∀ c ∈ p2.data, c ≠ '_' ∧ c ≠ '\\' := by
    intro c hc
    have := List.all_eq_true.mp h2 c hc
    simpa only [Bool.and_eq_true, bne_iff_ne] using this
  have hd := congrArg String.data h
  rw [noteId, noteId, String.data_append, String.data_append] at hd
  have hd2 := List.append_cancel_left hd
  have hd3 : ((p1.data.map fun c => if c = '/' then '_' else c).map
        fun c => if c = '\\' then '_' else c) =
      ((p2.data.map fun c => if c = '/' then '_' else c).map
        fun c => if c = '\\' then '_' else c) := hd2
  have hmap := congrArg (List.map sepUnfold) hd3
  rw [sepUnfold_cancel _ hc1, sepUnfold_cancel _ hc2] at hmap
  exact String.ext hmap

/-- Witness for `c5_noteId_inj` at the concrete path `"a/b"`. -/
theorem c5_noteId_inj_witness :
    pathSepSafe "a/b" = true ∧ ("a/b" : String) = "a/b" :=
  ⟨by decide, c5_noteId_inj "a/b" "a/b" (by decide) (by decide) rfl⟩

/-- Claim C9: `markdown_index_note` always stores `is_starred = 0` and
`is_template = 0` for the indexed path — the `INSERT OR REPLACE` column
list omits both flags, so the replacing row takes the schema defaults and
any previously set flag is cleared. -/
theorem c9_flags_cleared (st : IndexState) (now : Nat)
    (path title content frontmatter tags aliases : String) (wc : Int) (ck : String) :
    flagsOfPath (markdown_index_note st now path title content frontmatter tags aliases wc ck)
        path = some (false, false) := by
  rw [flagsOfPath, findByPath_indexNote_self]
  rfl

/-- Claim C10: when the query has no whitespace-delimited token, the built
MATCH expression is empty, fts5 rejects it as a syntax error, and
`markdown_search_notes` returns the mapped error instead of an empty
result list. -/
theorem c10_empty_query_error (st : IndexState)
    (bm25F : FtsEntry → List String → Int) (snippetF : FtsEntry → List String → String)
    (limit : Option Int) (query : String)
    (hq : splitWhitespaceTokens query = []) :
    markdown_search_notes st bm25F snippetF query limit =
      .error "Search failed: fts5 syntax error in MATCH expression" := by
  simp [markdown_search_notes, hq, ftsExprOk]

/-- Witness for `c10_empty_query_error` at the whitespace-only query. -/
theorem c10_empty_query_witness :
    splitWhitespaceTokens "   " = [] ∧
    markdown_search_notes markdown_init_index zeroScore emptySnippet "   " none =
      .error "Search failed: fts5 syntax error in MATCH expression" :=
  ⟨by decide,
    c10_empty_query_error markdown_init_index zeroScore emptySnippet none "   " (by decide)⟩

/-- Claim C1: refuted by the code — after indexing a document whose
content contains the word "kubernetes" (the stored row genuinely holds
that content, and "kube" is a prefix of one of its words under the FTS
tokenizer), a search for "kube" returns `ok []` for every scoring and
snippet function: `notes_fts` is an external-content FTS5 table that the
upsert never writes, so its inverted index is empty and `MATCH` selects
no rows.  The second half of the claim (a non-matching token yields an
empty list, not an error) does hold — vacuously, since every parsable
query yields the empty list. -/
theorem c1_search_recall_fails
    (bm25F : FtsEntry → List String → Int) (snippetF : FtsEntry → List String → String) :
    (ftsWords "kubernetes cluster setup").any
        (fun w => "kube".data.isPrefixOf w.data) = true ∧
    contentOfPath (markdown_index_note markdown_init_index 0 "note1.md" "Deploy"
        "kubernetes cluster setup" "" "" "" 3 "ck") "note1.md" =
      some "kubernetes cluster setup" ∧
    markdown_search_notes (markdown_index_note markdown_init_index 0 "note1.md" "Deploy"
        "kubernetes cluster setup" "" "" "" 3 "ck") bm25F snippetF "kube" none = .ok [] :=
  ⟨by decide, by decide, rfl⟩

/-- Claim C3: refuted by the code — with two indexed documents, one
containing the query term five times and one containing it once, a search
for that term returns `ok []` for every scoring function: neither
document is ranked at all, because the FTS index was never populated.
(Independently, the SQL orders by raw `bm25(notes_fts)` descending, and
SQLite's `bm25()` returns lower — more negative — values for better
matches, so even over a populated index this ordering would put the more
relevant document last.) -/
theorem c3_no_ranking
    (bm25F : FtsEntry → List String → Int) (snippetF : FtsEntry → List String → String) :
    (runOps [.indexNote 0 "a.md" "A" "redis redis redis redis redis" "" "" "" 5 "ka",
             .indexNote 1 "b.md" "B" "redis once" "" "" "" 2 "kb"]).notes.length = 2 ∧
    markdown_search_notes
      (runOps [.indexNote 0 "a.md" "A" "redis redis redis redis redis" "" "" "" 5 "ka",
               .indexNote 1 "b.md" "B" "redis once" "" "" "" 2 "kb"])
      bm25F snippetF "redis" none = .ok [] :=
  ⟨by decide, rfl⟩

/-- Claim C7: the MATCH expression is built exactly as the claim says
(whitespace tokens, each wrapped as a prefix phrase, joined with `OR`),
but the stated match semantics is refuted by the code: a document whose
searchable fields contain a word with the queried prefix (witnessed here
through the model's own FTS match predicate applied to the document's
fields) still does not match, because no shadow entry for it was ever
written to the FTS index. -/
theorem c7_or_of_prefixes_unmatched
    (bm25F : FtsEntry → List String → Int) (snippetF : FtsEntry → List String → String) :
    ftsMatchExpr "terra aws" = "\"terra\"* OR \"aws\"*" ∧
    entryMatches (splitWhitespaceTokens "terra")
      { rowid := 0, title := "Infra", content := "terraform module"
        tags := "", aliases := "" } = true ∧
    markdown_search_notes (markdown_index_note markdown_init_index 0 "infra.md" "Infra"
        "terraform module" "" "" "" 2 "ck") bm25F snippetF "terra" none = .ok [] :=
  ⟨by decide, by decide, rfl⟩

/-- Claim C2: counterexample — index `"a/b"` at time 1, then index the
*different* path `"a_b"` at time 2 (whose derived id collides with
`"a/b"`'s, so the `INSERT OR REPLACE` deletes `"a/b"`'s row), then index
`"a/b"` again at time 3.  The first insertion assigned `created = 1`, yet
the resulting stored document for `"a/b"` has `created = 3`. -/
theorem c2_created_counterexample :
    createdUpdatedOfPath (runOps [.indexNote 1 "a/b" "t" "c" "" "" "" 1 "k"]) "a/b" =
      some (some 1, some 1) ∧
    createdUpdatedOfPath (runOps [.indexNote 1 "a/b" "t" "c" "" "" "" 1 "k",
        .indexNote 2 "a_b" "t" "c" "" "" "" 1 "k",
        .indexNote 3 "a/b" "t2" "c2" "" "" "" 1 "k2"]) "a/b" =
      some (some 3, some 3) ∧
    (some 3 : Option Nat) ≠ some 1 :=
  ⟨by decide, by decide, by decide⟩

/-- Claim C2 (amended): if path `P` is first indexed at time `T1` into a
store holding no row for `P`, and every command issued between that call
and a later re-index of `P` at time `T2 ≥ T1` neither removes `P` nor
upserts a different path with a colliding derived id, then the resulting
row has `created` equal to the first call's time `T1` (never overwritten
by the later upsert) and `updated` equal to the later call's time `T2`,
so `updated ≥ T1`. -/
theorem c2_created_preserved (st0 : IndexState) (T1 T2 : Nat) (mid : List Op) (P : String)
    (t c fm tg al : String) (wc : Int) (ck : String)
    (t' c' fm' tg' al' : String) (wc' : Int) (ck' : String)
    (hfresh : findByPath st0 P = none) (hclock : T1 ≤ T2)
    (hmid : ∀ op ∈ mid, opPreservesPath P op) :
    createdUpdatedOfPath (markdown_index_note
        (mid.foldl applyOp (markdown_index_note st0 T1 P t c fm tg al wc ck))
        T2 P t' c' fm' tg' al' wc' ck') P = some (some T1, some T2) ∧ T1 ≤ T2 := by
  refine ⟨?_, hclock⟩
  have h1 := findByPath_indexNote_self st0 T1 P t c fm tg al wc ck
  rw [hfresh] at h1
  have h1' : findByPath (markdown_index_note st0 T1 P t c fm tg al wc ck) P =
      some { id := noteId P, path := P, title := t, content := c
             frontmatter := fm, tags := tg, aliases := al
             word_count := wc, checksum := ck
             created := some T1, updated := some T1
             is_starred := false, is_template := false } := h1
  have h2 := findByPath_foldl_preserved mid P _ rfl hmid _ h1'
  have h3 := findByPath_indexNote_self
    (mid.foldl applyOp (markdown_index_note st0 T1 P t c fm tg al wc ck))
    T2 P t' c' fm' tg' al' wc' ck'
  rw [h2] at h3
  rw [createdUpdatedOfPath, h3]
  rfl

/-- Witness for `c2_created_preserved`: immediate re-indexing of the same
path with no intervening command. -/
theorem c2_created_witness :
    findByPath markdown_init_index "p.md" = none ∧ (1 : Nat) ≤ 2 ∧
    (createdUpdatedOfPath (markdown_index_note
        (markdown_index_note markdown_init_index 1 "p.md" "t" "c" "" "" "" 1 "k")
        2 "p.md" "t2" "c2" "" "" "" 2 "k2") "p.md" = some (some 1, some 2) ∧ (1 : Nat) ≤ 2) :=
  ⟨rfl, by decide,
    c2_created_preserved markdown_init_index 1 2 [] "p.md" "t" "c" "" "" "" 1 "k"
      "t2" "c2" "" "" "" 2 "k2" rfl (by decide) (by simp)⟩

/-- Claim C6: after `markdown_remove_from_index` deletes path `P` from any
reachable store, `markdown_list_notes` (under any filter) returns no row
with path `P`, and `markdown_search_notes` returns `ok []` for every
parsable query — in particular a search for content unique to the removed
document returns the empty list, and no orphaned shadow row is ever
returned (the reachable FTS index holds none). -/
theorem c6_removed_path_not_returned (ops : List Op) (P : String)
    (flt : NoteRow → Bool) (query : String) (limit : Option Int)
    (bm25F : FtsEntry → List String → Int) (snippetF : FtsEntry → List String → String)
    (hq : ftsExprOk (splitWhitespaceTokens query) = true) :
    ((markdown_list_notes (markdown_remove_from_index (runOps ops) P) flt).all
        fun r => r.path != P) = true ∧
    markdown_search_notes (markdown_remove_from_index (runOps ops) P) bm25F snippetF
        query limit = .ok [] := by
  constructor
  · rw [List.all_eq_true]
    intro x hx
    rw [markdown_list_notes, mem_sortByUpdatedDesc, List.mem_map] at hx
    obtain ⟨r, hr, rfl⟩ := hx
    have hr2 : r ∈ (runOps ops).notes.filter fun y : NoteRow => y.path != P :=
      List.mem_of_mem_filter hr
    have := List.of_mem_filter hr2
    simpa [toNoteResult] using this
  · refine search_of_notesFts_nil _ _ _ _ _ ?_ hq
    show (runOps ops).notesFts = []
    exact runOps_notesFts ops

/-- Witness for `c6_removed_path_not_returned`: index one note, remove
it, then list and search for its unique content. -/
theorem c6_removed_path_witness :
    ftsExprOk (splitWhitespaceTokens "zebra") = true ∧
    (((markdown_list_notes (markdown_remove_from_index
        (runOps [.indexNote 0 "a.md" "T" "unique zebra content" "" "" "" 3 "k"]) "a.md")
        fun _ => true).all fun r => r.path != "a.md") = true ∧
      markdown_search_notes (markdown_remove_from_index
        (runOps [.indexNote 0 "a.md" "T" "unique zebra content" "" "" "" 3 "k"]) "a.md")
        zeroScore emptySnippet "zebra" none = .ok []) :=
  ⟨by decide,
    c6_removed_path_not_returned [.indexNote 0 "a.md" "T" "unique zebra content" "" "" "" 3 "k"]
      "a.md" (fun _ => true) "zebra" none zeroScore emptySnippet (by decide)⟩

/-- Claim C8: counterexample — the claim quantifies over *every* supplied
limit, but for the supplied limit `-1` the bound "at most `limit`
results" is violated: the call returns a list of 0 results, and 0
exceeds `-1`.  (SQLite moreover treats a negative `LIMIT` as "no bound",
so over a populated index a negative limit would return every match.) -/
theorem c8_negative_limit_counterexample :
    markdown_search_notes (runOps [.indexNote 0 "a.md" "A" "apple pie" "" "" "" 2 "k"])
        zeroScore emptySnippet "apple" (some (-1)) = .ok [] ∧
    ((okResults (markdown_search_notes
        (runOps [.indexNote 0 "a.md" "A" "apple pie" "" "" "" 2 "k"])
        zeroScore emptySnippet "apple" (some (-1)))).length : Int) > -1 :=
  ⟨rfl, by decide⟩

/-- Claim C8 (amended): for every *nonnegative* effective limit —
the supplied limit, or the default 50 when the argument is omitted —
a successful `markdown_search_notes` call returns at most that many
results, over every store, query and scoring function; a negative
supplied limit instead disables the cap (SQLite semantics of a negative
`LIMIT`). -/
theorem c8_result_cap (st : IndexState)
    (bm25F : FtsEntry → List String → Int) (snippetF : FtsEntry → List String → String)
    (query : String) (limit : Option Int) (res : List SearchResult)
    (hlim : 0 ≤ limit.getD 50)
    (hres : markdown_search_notes st bm25F snippetF query limit = .ok res) :
    res.length ≤ (limit.getD 50).toNat := by
  simp only [markdown_search_notes] at hres
  by_cases hok : ftsExprOk (splitWhitespaceTokens query) = true
  · rw [if_pos hok] at hres
    injection hres with h
    rw [← h]
    exact length_applyLimit _ _ hlim
  · rw [if_neg hok] at hres
    exact absurd hres (by simp)

/-- Witness for `c8_result_cap` at the supplied limit 10. -/
theorem c8_result_cap_witness :
    (0 : Int) ≤ ((some (10 : Int)).getD 50) ∧
    markdown_search_notes markdown_init_index zeroScore emptySnippet "x" (some 10) = .ok [] ∧
    ([] : List SearchResult).length ≤ ((some (10 : Int)).getD 50).toNat :=
  ⟨by decide, rfl,
    c8_result_cap markdown_init_index zeroScore emptySnippet "x" (some 10) [] (by decide) rfl⟩

end NoteIndex
